import Mathlib

/-!
Verification of the xenia x64 backend debugging helpers
(`x64_backend.cc`): the single-instruction stepper
`CalculateNextHostInstruction` with its helpers `ReadCapstoneReg` and
`TestCapstoneEflags`, the breakpoint patcher
`InstallBreakpoint`/`UninstallBreakpoint`, and the exception dispatcher
`ExceptionCallback`.

Modelling conventions:
* Host memory is byte-addressed: `Mem := Nat → Nat`, with each byte taken
  mod 256 on access (C reads through `uint8_t`).
* Machine integers are `Nat`/`Int` with explicit `% 2 ^ 64` (resp. masks)
  where the C code can overflow or truncate.
* The capstone disassembler is third-party code: the stepper is modelled as
  a function of the already-decoded instruction (id, size, operand list),
  exactly the data `cs_disasm_iter` hands to the `switch` in the source.
* The xenia `assert_*` macros do not alter control flow (execution falls
  through in release builds); each modelled operation therefore returns an
  extra `Bool` that is `true` iff some assertion condition was violated
  (`assert_true` with a false argument, `assert_zero` with a nonzero
  argument, `assert_always`, or `assert_unhandled_case`).
-/

namespace X64

/-- Byte-addressed host memory. -/
abbrev Mem := Nat → Nat

/-- The load `xe::load_and_swap<uint16_t>(ptr)`: read two bytes at the address
and byte-swap them (the x64 host is little-endian, so this is a big-endian
16-bit read). -/
def loadSwap16 (mem : Mem) (a : Nat) : Nat :=
  mem a % 256 * 256 + mem (a + 1) % 256

/-- The store `xe::store_and_swap<uint16_t>(ptr, v)`: byte-swap the 16-bit
value and store its two bytes (big-endian 16-bit store). -/
def storeSwap16 (mem : Mem) (a : Nat) (v : Nat) : Mem :=
  fun x => if x = a then v / 256 % 256 else if x = a + 1 then v % 256 else mem x

/-- The plain little-endian 64-bit load `stack_ptr[0]` used by the `RET`
case of the stepper. -/
def load64 (mem : Mem) (a : Nat) : Nat :=
  mem a % 256 + mem (a + 1) % 256 * 2 ^ 8 + mem (a + 2) % 256 * 2 ^ 16 +
    mem (a + 3) % 256 * 2 ^ 24 + mem (a + 4) % 256 * 2 ^ 32 +
    mem (a + 5) % 256 * 2 ^ 40 + mem (a + 6) % 256 * 2 ^ 48 +
    mem (a + 7) % 256 * 2 ^ 56

/-- The `static_cast<uint64_t>` applied to capstone's `int64_t` immediate. -/
def castU64 (v : Int) : Nat := (v % (2 ^ 64 : Int)).toNat

/-- The host register file snapshot `X64Context` (the fields read by
`ReadCapstoneReg` plus `eflags`); every field is a 64-bit (resp. 32-bit for
`eflags`) machine integer. -/
structure X64Context where
  rax : Nat
  rcx : Nat
  rdx : Nat
  rbx : Nat
  rsp : Nat
  rbp : Nat
  rsi : Nat
  rdi : Nat
  r8 : Nat
  r9 : Nat
  r10 : Nat
  r11 : Nat
  r12 : Nat
  r13 : Nat
  r14 : Nat
  r15 : Nat
  eflags : Nat
deriving DecidableEq

/-- Capstone's `x86_reg`: the sixteen 64-bit general-purpose registers the
source names, with `other n` standing for every remaining enumerator of the
capstone enumeration (all of which hit the `default` arm of
`ReadCapstoneReg`). -/
inductive X86Reg where
  | RAX | RCX | RDX | RBX | RSP | RBP | RSI | RDI
  | R8 | R9 | R10 | R11 | R12 | R13 | R14 | R15
  | other (n : Nat)
deriving DecidableEq

/-- Capstone instruction ids: exactly the ids named by the `switch` in
`CalculateNextHostInstruction` and `TestCapstoneEflags`, with `other n`
standing for every remaining enumerator (all of which hit the respective
`default` arms). -/
inductive InsnId where
  | CALL | RET | JMP
  | JCXZ | JECXZ | JRCXZ
  | JAE | JA | JBE | JB | JE | JGE | JG | JLE | JL
  | JNE | JNO | JNP | JNS | JO | JP | JS
  | other (n : Nat)
deriving DecidableEq

/-- A capstone `cs_x86_op` operand, as inspected by the stepper:
`X86_OP_REG`, `X86_OP_IMM` (an `int64_t`), `X86_OP_MEM`, or the
zero-initialized `X86_OP_INVALID`. -/
inductive Operand where
  | invalid
  | reg (r : X86Reg)
  | imm (v : Int)
  | memOp
deriving DecidableEq

/-- Whether the operand's `type` field is `X86_OP_REG`. -/
def Operand.isRegOp : Operand → Bool
  | .reg _ => true
  | _ => false

/-- Whether the operand's `type` field is `X86_OP_IMM`. -/
def Operand.isImmOp : Operand → Bool
  | .imm _ => true
  | _ => false

/-- Reading the `reg` member of the operand union. The source only reads it
on paths where the operand type was asserted to be `X86_OP_REG`; on the
(asserted-against) other paths the union member is unspecified and modelled
as `other 0`. -/
def Operand.unionReg : Operand → X86Reg
  | .reg r => r
  | _ => .other 0

/-- Reading the `imm` member of the operand union. The source only reads it
on paths where the operand type was asserted to be `X86_OP_IMM`; on the
(asserted-against) other paths the union member is unspecified and modelled
as `0`. -/
def Operand.unionImm : Operand → Int
  | .imm v => v
  | _ => 0

/-- The decoded instruction data the stepper consumes: `insn.id`,
`insn.size`, and `detail.x86.operands` (with `op_count` its length). -/
structure Insn where
  id : InsnId
  size : Nat
  operands : List Operand

/-- The helper `ReadCapstoneReg(context, reg)`: returns the named context
field for the sixteen 64-bit GPRs; the `default` arm runs
`assert_unhandled_case(reg)` and returns 0. Result is
`(value, assertion-fired)`. -/
def ReadCapstoneReg (context : X64Context) (reg : X86Reg) : Nat × Bool :=
  match reg with
  | .RAX => (context.rax, false)
  | .RCX => (context.rcx, false)
  | .RDX => (context.rdx, false)
  | .RBX => (context.rbx, false)
  | .RSP => (context.rsp, false)
  | .RBP => (context.rbp, false)
  | .RSI => (context.rsi, false)
  | .RDI => (context.rdi, false)
  | .R8 => (context.r8, false)
  | .R9 => (context.r9, false)
  | .R10 => (context.r10, false)
  | .R11 => (context.r11, false)
  | .R12 => (context.r12, false)
  | .R13 => (context.r13, false)
  | .R14 => (context.r14, false)
  | .R15 => (context.r15, false)
  | .other _ => (0, true)

def X86_EFLAGS_CF : Nat := 0x00000001
def X86_EFLAGS_PF : Nat := 0x00000004
def X86_EFLAGS_ZF : Nat := 0x00000040
def X86_EFLAGS_SF : Nat := 0x00000080
def X86_EFLAGS_OF : Nat := 0x00000800

/-- The helper `TestCapstoneEflags(eflags, insn)`, transcribed literally.
Note the `JLE` arm compares `eflags & X86_EFLAGS_SF` against the constant
`X86_EFLAGS_OF` (not against `eflags & X86_EFLAGS_OF`), and the `JL` arm
compares the two masked values against each other, exactly as the source
does. Result is `(test-result, assertion-fired)`; the `default` arm runs
`assert_unhandled_case(insn)` and returns false. -/
def TestCapstoneEflags (eflags : Nat) (insn : InsnId) : Bool × Bool :=
  match insn with
  | .JAE => (((eflags &&& X86_EFLAGS_CF) == 0) && ((eflags &&& X86_EFLAGS_ZF) == 0), false)
  | .JA => ((eflags &&& X86_EFLAGS_CF) == 0, false)
  | .JBE => (((eflags &&& X86_EFLAGS_CF) == X86_EFLAGS_CF) ||
      ((eflags &&& X86_EFLAGS_ZF) == X86_EFLAGS_ZF), false)
  | .JB => ((eflags &&& X86_EFLAGS_CF) == X86_EFLAGS_CF, false)
  | .JE => ((eflags &&& X86_EFLAGS_ZF) == X86_EFLAGS_ZF, false)
  | .JGE => ((eflags &&& X86_EFLAGS_SF) == (eflags &&& X86_EFLAGS_OF), false)
  | .JG => (((eflags &&& X86_EFLAGS_ZF) == 0) &&
      ((eflags &&& X86_EFLAGS_SF) == (eflags &&& X86_EFLAGS_OF)), false)
  | .JLE => (((eflags &&& X86_EFLAGS_ZF) == X86_EFLAGS_ZF) ||
      ((eflags &&& X86_EFLAGS_SF) != X86_EFLAGS_OF), false)
  | .JL => ((eflags &&& X86_EFLAGS_SF) != (eflags &&& X86_EFLAGS_OF), false)
  | .JNE => ((eflags &&& X86_EFLAGS_ZF) == 0, false)
  | .JNO => ((eflags &&& X86_EFLAGS_OF) == 0, false)
  | .JNP => ((eflags &&& X86_EFLAGS_PF) == 0, false)
  | .JNS => ((eflags &&& X86_EFLAGS_SF) == 0, false)
  | .JO => ((eflags &&& X86_EFLAGS_OF) == X86_EFLAGS_OF, false)
  | .JP => ((eflags &&& X86_EFLAGS_PF) == X86_EFLAGS_PF, false)
  | .JS => ((eflags &&& X86_EFLAGS_SF) == X86_EFLAGS_SF, false)
  | _ => (false, true)

/-- `X64Backend::CalculateNextHostInstruction`, after capstone has decoded
the instruction at `current_pc` into `insn`. `context` is
`thread_info->host_context` and `mem` the host memory. Result is
`(next-pc, assertion-fired)`; every arithmetic result is reduced modulo
`2 ^ 64` exactly where the C `uint64_t` arithmetic wraps. -/
def CalculateNextHostInstruction (context : X64Context) (mem : Mem)
    (current_pc : Nat) (insn : Insn) : Nat × Bool :=
  match insn.id with
  | .CALL =>
      let a0 := insn.operands.length != 1
      let op0 := insn.operands.getD 0 .invalid
      let a1 := !op0.isRegOp
      let r := ReadCapstoneReg context op0.unionReg
      (r.1, a0 || a1 || r.2)
  | .RET =>
      let a0 := insn.operands.length != 0
      (load64 mem context.rsp, a0)
  | .JMP =>
      let a0 := insn.operands.length != 1
      match insn.operands.getD 0 .invalid with
      | .imm v => (castU64 v, a0)
      | .reg r =>
          let rr := ReadCapstoneReg context r
          (rr.1, a0 || rr.2)
      | _ => ((current_pc + insn.size) % 2 ^ 64, true)
  | .JCXZ => ((current_pc + insn.size) % 2 ^ 64, true)
  | .JECXZ => ((current_pc + insn.size) % 2 ^ 64, true)
  | .JRCXZ => ((current_pc + insn.size) % 2 ^ 64, true)
  | .JAE | .JA | .JBE | .JB | .JE | .JGE | .JG | .JLE | .JL
  | .JNE | .JNO | .JNP | .JNS | .JO | .JP | .JS =>
      let a0 := insn.operands.length != 1
      let op0 := insn.operands.getD 0 .invalid
      let a1 := !op0.isImmOp
      let target_pc := castU64 op0.unionImm
      let t := TestCapstoneEflags context.eflags insn.id
      (if t.1 then target_pc else (current_pc + insn.size) % 2 ^ 64, a0 || a1 || t.2)
  | .other _ =>
      ((current_pc + insn.size) % 2 ^ 64, false)

/-- A breakpoint as the patcher sees it: the host addresses
`ForEachHostAddress` enumerates, and the recorded
`(host_address, original_bytes)` pairs in `backend_data()`. -/
structure Breakpoint where
  host_addresses : List Nat
  backend_data : List (Nat × Nat)
deriving DecidableEq

/-- One iteration of the `ForEachHostAddress` lambda in
`X64Backend::InstallBreakpoint`: read the original two bytes, assert they
are not already the trap signature `0x0F0B`, write the trap signature,
append the record. State is `(memory, records, assertion-fired)`. -/
def installAt (st : Mem × List (Nat × Nat) × Bool) (host_address : Nat) :
    Mem × List (Nat × Nat) × Bool :=
  let original_bytes := loadSwap16 st.1 host_address
  (storeSwap16 st.1 host_address 0x0F0B,
   st.2.1 ++ [(host_address, original_bytes)],
   st.2.2 || (original_bytes == 0x0F0B))

/-- `X64Backend::InstallBreakpoint(breakpoint)`: runs `installAt` for every
host address of the breakpoint. -/
def InstallBreakpoint (breakpoint : Breakpoint) (mem : Mem) :
    Breakpoint × Mem × Bool :=
  let st := breakpoint.host_addresses.foldl installAt
    (mem, breakpoint.backend_data, false)
  ({ breakpoint with backend_data := st.2.1 }, st.1, st.2.2)

/-- One iteration of the loop in `X64Backend::UninstallBreakpoint`: assert
the current two bytes equal the trap signature, restore the original bytes
(the record value truncated through `static_cast<uint16_t>`). State is
`(memory, assertion-fired)`. -/
def uninstallAt (st : Mem × Bool) (pair : Nat × Nat) : Mem × Bool :=
  let instruction_bytes := loadSwap16 st.1 pair.1
  (storeSwap16 st.1 pair.1 (pair.2 % 2 ^ 16),
   st.2 || (instruction_bytes != 0x0F0B))

/-- `X64Backend::UninstallBreakpoint(breakpoint)`: runs `uninstallAt` for
every recorded pair, then clears the record collection. -/
def UninstallBreakpoint (breakpoint : Breakpoint) (mem : Mem) :
    Breakpoint × Mem × Bool :=
  let st := breakpoint.backend_data.foldl uninstallAt (mem, false)
  ({ breakpoint with backend_data := [] }, st.1, st.2)

/-- The exception kind `Exception::Code`: `kIllegalInstruction`, or any
other code. -/
inductive ExceptionCode where
  | illegalInstruction
  | other (n : Nat)
deriving DecidableEq

/-- The exception record consumed by the dispatcher: `ex->code()` and
`ex->pc()`. -/
structure Exception where
  code : ExceptionCode
  pc : Nat
deriving DecidableEq

/-- `X64Backend::ExceptionCallback(ex)`. `onThreadBreakpointHit` is the
runtime's `processor()->OnThreadBreakpointHit` handler (external; it may
itself mutate memory, so it is threaded through). Result is
`(handled, memory-after, handler-invocation-count)`. -/
def ExceptionCallback (onThreadBreakpointHit : Exception → Mem → Bool × Mem)
    (ex : Exception) (mem : Mem) : Bool × Mem × Nat :=
  if ex.code ≠ ExceptionCode.illegalInstruction then
    (false, mem, 0)
  else
    let instruction_bytes := loadSwap16 mem ex.pc
    if instruction_bytes ≠ 0x0F0B then
      (false, mem, 0)
    else
      let r := onThreadBreakpointHit ex mem
      (r.1, r.2, 1)

/-- All-zero register snapshot, used for concrete instances. -/
def ctx0 : X64Context := ⟨0, 0, 0, 0, 0, 0, 0, 0, 0, 0, 0, 0, 0, 0, 0, 0, 0⟩

/-- All-zero memory, used for concrete instances. -/
def memZero : Mem := fun _ => 0

/-- Stack snapshot with `rsp = 0x7000`, used for the RET instance. -/
def memRet : Mem := fun a => if a = 0x7001 then 0x40 else 0

/-- Memory holding the trap signature `0x0F0B` at `0x2000`. -/
def memTrap : Mem := storeSwap16 memZero 0x2000 0x0F0B

/-- Single-address breakpoint with no records yet. -/
def bpW : Breakpoint := ⟨[0x1000], []⟩

/-- C1 evidence. -/
theorem jle_code_always_takes_jump :
    (∀ eflags : Nat, (TestCapstoneEflags eflags .JLE).1 = true) ∧
    ctx0.eflags &&& X86_EFLAGS_ZF = 0 ∧
    ctx0.eflags &&& X86_EFLAGS_SF = ctx0.eflags &&& X86_EFLAGS_OF ∧
    CalculateNextHostInstruction ctx0 memZero 0x1000 ⟨.JLE, 2, [.imm 0x2000]⟩ =
      (0x2000, false) := by
  refine ⟨fun eflags => ?_, by decide, by decide, by decide⟩
  have h : eflags &&& X86_EFLAGS_SF ≤ X86_EFLAGS_SF := Nat.and_le_right
  simp [TestCapstoneEflags, X86_EFLAGS_SF, X86_EFLAGS_OF] at h ⊢
  omega

/-- C2 evidence. -/
theorem jl_code_wrong_when_sf_and_of_both_set :
    0x880 &&& X86_EFLAGS_SF = X86_EFLAGS_SF ∧
    0x880 &&& X86_EFLAGS_OF = X86_EFLAGS_OF ∧
    (TestCapstoneEflags 0x880 .JL).1 = true ∧
    CalculateNextHostInstruction { ctx0 with eflags := 0x880 } memZero 0x1000
      ⟨.JL, 2, [.imm 0x2000]⟩ = (0x2000, false) := by decide

/-- C3 theorem. -/
theorem je_steps_by_zero_flag (context : X64Context) (mem : Mem) (pc len t : Nat)
    (ht : t < 2 ^ 64) (hpc : pc + len < 2 ^ 64) :
    CalculateNextHostInstruction context mem pc ⟨.JE, len, [.imm (t : Int)]⟩ =
      (if context.eflags &&& X86_EFLAGS_ZF = X86_EFLAGS_ZF then t else pc + len,
       false) := by
  have hc : castU64 (t : Int) = t := by unfold castU64; omega
  simp [CalculateNextHostInstruction, TestCapstoneEflags, Operand.isImmOp,
    Operand.unionImm, hc]
  by_cases h : context.eflags &&& X86_EFLAGS_ZF = X86_EFLAGS_ZF <;>
    simp [h, Nat.mod_eq_of_lt hpc]
  omega

/-- C3 witness. -/
theorem je_steps_by_zero_flag_witness :
    CalculateNextHostInstruction { ctx0 with eflags := 0x40 } memZero 0x1000
      ⟨.JE, 2, [.imm 0x2000]⟩ = (0x2000, false) ∧
    CalculateNextHostInstruction ctx0 memZero 0x1000
      ⟨.JE, 2, [.imm 0x2000]⟩ = (0x1002, false) := by
  constructor
  · have h := je_steps_by_zero_flag { ctx0 with eflags := 0x40 } memZero 0x1000 2
      0x2000 (by decide) (by decide)
    simpa using h
  · have h := je_steps_by_zero_flag ctx0 memZero 0x1000 2 0x2000
      (by decide) (by decide)
    simpa [ctx0] using h

/-- C4 theorem. -/
theorem ret_reads_word_at_stack_pointer :
    (∀ (context : X64Context) (mem : Mem) (pc len : Nat),
      CalculateNextHostInstruction context mem pc ⟨.RET, len, []⟩ =
        (load64 mem context.rsp, false)) ∧
    CalculateNextHostInstruction { ctx0 with rsp := 0x7000 } memRet 0x1234
      ⟨.RET, 1, []⟩ = (0x4000, false) := by
  constructor
  · intro context mem pc len
    simp [CalculateNextHostInstruction]
  · decide

/-- C5 counterexample. -/
theorem unrecognized_id_returns_result :
    CalculateNextHostInstruction ctx0 memZero 100 ⟨.other 512, 3, []⟩ =
      (103, false) := by decide

/-- C5 amended theorem. -/
theorem unrecognized_id_falls_through (context : X64Context) (mem : Mem)
    (pc sz n : Nat) (ops : List Operand) (h : pc + sz < 2 ^ 64) :
    CalculateNextHostInstruction context mem pc ⟨.other n, sz, ops⟩ =
      (pc + sz, false) := by
  simp [CalculateNextHostInstruction, Nat.mod_eq_of_lt h]
  omega

/-- C5 witness. -/
theorem unrecognized_id_falls_through_witness :
    7 + 4 < 2 ^ 64 ∧
    CalculateNextHostInstruction ctx0 memZero 7 ⟨.other 999, 4, []⟩ =
      (7 + 4, false) :=
  ⟨by decide, unrecognized_id_falls_through ctx0 memZero 7 4 999 [] (by decide)⟩

/-- C6 theorem. -/
theorem install_uninstall_restores (mem : Mem) (a : Nat) (bp : Breakpoint)
    (haddr : bp.host_addresses = [a]) (hdata : bp.backend_data = [])
    (hbyte : loadSwap16 mem a ≠ 0x0F0B) (hmem : ∀ x, mem x < 256) :
    (∀ x, (UninstallBreakpoint (InstallBreakpoint bp mem).1
        (InstallBreakpoint bp mem).2.1).2.1 x = mem x) ∧
    (UninstallBreakpoint (InstallBreakpoint bp mem).1
        (InstallBreakpoint bp mem).2.1).1.backend_data = [] := by
  constructor
  · intro x
    simp only [InstallBreakpoint, UninstallBreakpoint, haddr, hdata,
      List.foldl_cons, List.foldl_nil, installAt, uninstallAt, List.nil_append]
    simp only [storeSwap16, loadSwap16]
    by_cases hx1 : x = a
    · subst hx1
      have h1 := hmem x
      have h2 := hmem (x + 1)
      simp
      omega
    · by_cases hx2 : x = a + 1
      · subst hx2
        have h1 := hmem a
        have h2 := hmem (a + 1)
        simp [hx1]
        omega
      · simp [hx1, hx2]
  · simp [UninstallBreakpoint]

/-- C6 witness. -/
theorem install_uninstall_restores_witness :
    (UninstallBreakpoint (InstallBreakpoint bpW memZero).1
        (InstallBreakpoint bpW memZero).2.1).2.1 0x1000 = memZero 0x1000 ∧
    (UninstallBreakpoint (InstallBreakpoint bpW memZero).1
        (InstallBreakpoint bpW memZero).2.1).1.backend_data = [] :=
  ⟨(install_uninstall_restores memZero 0x1000 bpW rfl rfl (by decide)
      (fun _ => by simp [memZero])).1 0x1000,
   (install_uninstall_restores memZero 0x1000 bpW rfl rfl (by decide)
      (fun _ => by simp [memZero])).2⟩

/-- C7 counterexample. -/
theorem uninstall_empty_runs_clean :
    UninstallBreakpoint ⟨[0x1000], []⟩ memZero =
      (⟨[0x1000], []⟩, memZero, false) := rfl

/-- C7 amended theorem. -/
theorem uninstall_empty_is_noop (bp : Breakpoint) (mem : Mem)
    (h : bp.backend_data = []) :
    UninstallBreakpoint bp mem = ({ bp with backend_data := [] }, mem, false) := by
  simp [UninstallBreakpoint, h]

/-- C7 witness. -/
theorem uninstall_empty_is_noop_witness :
    UninstallBreakpoint ⟨[0x2000], []⟩ memZero =
      (⟨[0x2000], []⟩, memZero, false) :=
  uninstall_empty_is_noop ⟨[0x2000], []⟩ memZero rfl

/-- C8 theorem. -/
theorem dispatcher_declines_non_illegal (handler : Exception → Mem → Bool × Mem)
    (ex : Exception) (mem : Mem)
    (h : ex.code ≠ ExceptionCode.illegalInstruction) :
    ExceptionCallback handler ex mem = (false, mem, 0) := by
  simp [ExceptionCallback, h]

/-- C8 witness. -/
theorem dispatcher_declines_non_illegal_witness :
    ExceptionCallback (fun _ m => (true, m)) ⟨.other 5, 0x2000⟩ memTrap =
      (false, memTrap, 0) :=
  dispatcher_declines_non_illegal (fun _ m => (true, m)) ⟨.other 5, 0x2000⟩
    memTrap (by decide)

/-- C9 theorem. -/
theorem dispatcher_delegates_exactly_once (handler : Exception → Mem → Bool × Mem)
    (ex : Exception) (mem : Mem)
    (h : ex.code = ExceptionCode.illegalInstruction) :
    (loadSwap16 mem ex.pc = 0x0F0B →
      ExceptionCallback handler ex mem =
        ((handler ex mem).1, (handler ex mem).2, 1)) ∧
    (loadSwap16 mem ex.pc ≠ 0x0F0B →
      ExceptionCallback handler ex mem = (false, mem, 0)) := by
  constructor
  · intro hb
    simp [ExceptionCallback, h, hb]
  · intro hb
    simp [ExceptionCallback, h, hb]

/-- C9 witness. -/
theorem dispatcher_delegates_exactly_once_witness :
    ExceptionCallback (fun _ m => (true, m)) ⟨.illegalInstruction, 0x2000⟩
      memTrap = (true, memTrap, 1) :=
  (dispatcher_delegates_exactly_once (fun _ m => (true, m))
    ⟨.illegalInstruction, 0x2000⟩ memTrap rfl).1 (by decide)

/-- C10 theorem. -/
theorem unknown_reg_reads_zero (context : X64Context) (mem : Mem)
    (pc sz n : Nat) :
    ReadCapstoneReg context (.other n) = (0, true) ∧
    CalculateNextHostInstruction context mem pc
      ⟨.CALL, sz, [.reg (.other n)]⟩ = (0, true) ∧
    CalculateNextHostInstruction context mem pc
      ⟨.JMP, sz, [.reg (.other n)]⟩ = (0, true) := by
  refine ⟨rfl, ?_, ?_⟩ <;>
    simp [CalculateNextHostInstruction, ReadCapstoneReg, Operand.isRegOp,
      Operand.unionReg]

end X64
